import Mathlib

/-!
Verification of the federated-learning orchestration and transport core of
the pycubed-software repository, against its natural-language specification.
The Lean definitions below are shallow embeddings of the Python source in
src/src/federatedlearning (tasks/server.py, tasks/client.py, utils/serial.py,
utils/radio.py, config.py).  Bytes are modelled as Nat values below 256,
byte strings as List Nat, Python exceptions as an explicit error type, and
the external radio and serial environments as explicit event lists.
-/

namespace PyCubed

/-- Python runtime errors that the embedded code can raise. -/
inductive PyError where
  | typeError
  | nameError
  | attributeError
  | indexError
  | assertionError
  | structError
  deriving DecidableEq, Repr

/-- Python list read semantics, `l[i]`: indices in `[0, len)` read directly,
indices in `[-len, 0)` read from the end, anything else raises IndexError. -/
def pyGet {α : Type} (l : List α) (i : Int) : Except PyError α :=
  if h : 0 ≤ i ∧ i < l.length then
    .ok (l.get ⟨i.toNat, by omega⟩)
  else if h2 : i < 0 ∧ 0 ≤ i + l.length then
    .ok (l.get ⟨(i + l.length).toNat, by omega⟩)
  else
    .error .indexError

/-- Python list write semantics, `l[i] = a`, with the same index rules. -/
def pySet {α : Type} (l : List α) (i : Int) (a : α) : Except PyError (List α) :=
  if 0 ≤ i ∧ i < l.length then
    .ok (l.set i.toNat a)
  else if i < 0 ∧ 0 ≤ i + l.length then
    .ok (l.set (i + l.length).toNat a)
  else
    .error .indexError

/-- Python index validity check for lists whose contents we do not track
(the per-client parameter file handles). -/
def pyIndexOk (len : Nat) (i : Int) : Except PyError Unit :=
  if (0 ≤ i ∧ i < len) ∨ (i < 0 ∧ 0 ≤ i + len) then .ok () else .error .indexError

/-- config.py: RADIO_PACKETSIZE = 248. -/
def RADIO_PACKETSIZE : Nat := 248

/-- config.py: SERIAL_BUFFERSIZE = 256. -/
def SERIAL_BUFFERSIZE : Nat := 256

/-- utils/radio.py: the hard-coded board address table `board_ids`. -/
def board_ids : List Nat := [0xA0, 0xB3, 0xC6, 0xD9, 0xEC]

/-- utils/radio.py, `get_radiohead_ID(board_num)`:
`return board_ids[board_num-1]` with Python list indexing. -/
def get_radiohead_ID (board_num : Int) : Except PyError Nat :=
  pyGet board_ids (board_num - 1)

/-- struct.pack("I", n): 4 little-endian bytes of an unsigned 32-bit value. -/
def le32 (n : Nat) : List Nat :=
  [n % 256, n / 256 % 256, n / 65536 % 256, n / 16777216 % 256]

/-- struct.pack("H", n): 2 little-endian bytes of an unsigned 16-bit value. -/
def le16 (n : Nat) : List Nat :=
  [n % 256, n / 256 % 256]

/-- struct.unpack("I", b): decode 4 little-endian bytes. -/
def de32 (b : List Nat) : Nat :=
  b.getD 0 0 + 256 * b.getD 1 0 + 65536 * b.getD 2 0 + 16777216 * b.getD 3 0

/-- struct.unpack("H", b): decode 2 little-endian bytes. -/
def de16 (b : List Nat) : Nat :=
  b.getD 0 0 + 256 * b.getD 1 0

/-- struct.unpack("I", msg) applied to an optional received radio message:
a missing message (None) raises TypeError, a message whose length is not
exactly 4 raises struct.error, otherwise the u32 is decoded. -/
def structUnpackI (msg : Option (List Nat)) : Except PyError Nat :=
  match msg with
  | none => .error .typeError
  | some b => if b.length = 4 then .ok (de32 b) else .error .structError

/-- utils/serial.py, `Serial.generate_protocol_buffer`: the 12-byte serial
header `cmd ++ scope ++ pack(I, params_length) ++ pack(H, cid) ++ pack(I, num_samples)`. -/
def generate_protocol_buffer (cmd scope params_length cid num_samples : Nat) : List Nat :=
  [cmd] ++ [scope] ++ le32 params_length ++ le16 cid ++ le32 num_samples

/-- Decoder for the 12-byte serial header, reading the documented layout:
byte 0 cmd, byte 1 scope, bytes 2-5 LE u32 length, bytes 6-7 LE u16 cid,
bytes 8-11 LE u32 sample count. -/
def decode_protocol_buffer (buf : List Nat) : Option (Nat × Nat × Nat × Nat × Nat) :=
  match buf with
  | [c, s, a0, a1, a2, a3, b0, b1, c0, c1, c2, c3] =>
      some (c, s, de32 [a0, a1, a2, a3], de16 [b0, b1], de32 [c0, c1, c2, c3])
  | _ => none

/-- The successive reads `f.read(min(remaining, RADIO_PACKETSIZE))` performed
by `_tx_params_radio` over a parameters file with contents `blob`. -/
def txChunks (blob : List Nat) : List (List Nat) :=
  if blob.isEmpty then []
  else blob.take RADIO_PACKETSIZE :: txChunks (blob.drop RADIO_PACKETSIZE)
termination_by blob.length
decreasing_by
  rename_i h
  simp only [List.length_drop]
  have hpos : 0 < blob.length := by
    cases blob with
    | nil => simp at h
    | cons a l => simp
  simp [RADIO_PACKETSIZE]
  omega

/-- server.py / client.py, `_tx_params_radio`: send the file packet-by-packet;
each `send_with_ack` outcome (ack valid and first byte `!`) is drawn from
`acks`; on a failed ack the loop breaks.  Returns the number of bytes
transmitted and the list of packets that were sent and acknowledged. -/
def txRun : List Nat → List Bool → Nat × List (List Nat)
  | _, [] => (0, [])
  | blob, a :: rest =>
    if blob.isEmpty then (0, [])
    else if a then
      let c := blob.take RADIO_PACKETSIZE
      let r := txRun (blob.drop RADIO_PACKETSIZE) rest
      (c.length + r.1, c :: r.2)
    else (0, [])

/-- The truncation `buffer = buffer[:incoming-num_read]` applied by
`_rx_params_radio` when fewer than RADIO_PACKETSIZE bytes remain. -/
def truncBuf (incoming numRead : Nat) (b : List Nat) : List Nat :=
  if incoming - numRead < RADIO_PACKETSIZE then b.take (incoming - numRead) else b

/-- Result of one run of the `_rx_params_radio` while-loop. -/
inductive RxResult where
  /-- The loop condition `num_bytes_read < incoming` became false. -/
  | done (written : List Nat)
  /-- `retries >= max_retries` held at a missed packet: break. -/
  | aborted (written : List Nat)
  /-- The supplied event trace ended while the loop was still waiting. -/
  | outOfEvents (written : List Nat)
  deriving DecidableEq, Repr

/-- server.py / client.py, `_rx_params_radio` while-loop.  Each loop iteration
consumes one event: `some b` models a packet delivered by
`radio1.receive(with_ack=True)`, `none` models a timeout or CRC error
(`buffer is None`).  `acc` is the byte sequence written to the parameters
file so far (`num_bytes_read = acc.length`), `r` is the current value of
`retries`. -/
def rxLoop (incoming m : Nat) : List (Option (List Nat)) → List Nat → Nat → RxResult
  | [], acc, _ =>
      if incoming ≤ acc.length then .done acc else .outOfEvents acc
  | none :: rest, acc, r =>
      if incoming ≤ acc.length then .done acc
      else if m ≤ r then .aborted acc
      else rxLoop incoming m rest acc (r + 1)
  | some b :: rest, acc, _ =>
      if incoming ≤ acc.length then .done acc
      else rxLoop incoming m rest (acc ++ truncBuf incoming acc.length b) 0

/-- The reads `serial_port.read(in_waiting)` performed by the while-loop of
`Serial.rx_params`: each event is one opportunistic chunk read from the
serial port.  Returns the bytes written to the parameters file when the
loop condition `num_bytes_read < incoming` becomes false, or `none` when
the event trace ends with the loop still waiting. -/
def serialRxLoop (incoming : Nat) : List (List Nat) → List Nat → Option (List Nat)
  | [], acc => if incoming ≤ acc.length then some acc else none
  | c :: rest, acc =>
      if incoming ≤ acc.length then some acc
      else serialRxLoop incoming rest (acc ++ c)

/-- Outcome of `Serial.rx_params`. -/
inductive SerialRxResult where
  /-- serial_port.connected was false: return False. -/
  | notConnected
  /-- The 5-byte ack did not start with the byte `!`: return False. -/
  | noAck
  /-- struct.unpack on ack_msg[1:] raised (ack shorter than 5 bytes). -/
  | unpackError
  /-- The read loop was still waiting when the trace ended. -/
  | diverge
  /-- The read loop finished and rx_params returned True, having written
  the given bytes to the parameters file. -/
  | success (written : List Nat)
  deriving DecidableEq, Repr

/-- utils/serial.py, `Serial.rx_params(params_file, get_global_params)`:
writes the 12-byte S-header, reads a 5-byte ack, and on a `!` ack reads
`incoming_params_length` bytes in `in_waiting`-sized chunks, then returns
True unconditionally.  `fileLen` is the current length of params_file
(sent in the header), `ack` the 5 bytes read from the port, `chunks` the
successive `read(in_waiting)` results.  The first component is the header
written to the port. -/
def rx_params (connected : Bool) (getGlobal : Bool) (fileLen : Nat)
    (ack : List Nat) (chunks : List (List Nat)) : List Nat × SerialRxResult :=
  let header := generate_protocol_buffer 83 (if getGlobal then 71 else 76) fileLen 0 0
  if ¬connected then (header, .notConnected)
  else if ack.take 1 = [33] then
    if (ack.drop 1).length = 4 then
      let incoming := de32 (ack.drop 1)
      match serialRxLoop incoming chunks [] with
      | some acc => (header, .success acc)
      | none => (header, .diverge)
    else (header, .unpackError)
  else (header, .noAck)

/-- The methods defined by class Serial in utils/serial.py. -/
def serialMethods : List String :=
  ["debug", "tx_params", "rx_params", "get_num_samples",
   "instruct_server_use_local_model", "generate_protocol_buffer"]

/-- Python attribute lookup on a Serial object: a name that is not a method
of the class raises AttributeError. -/
def serialGetattr (name : String) : Except PyError Unit :=
  if name ∈ serialMethods then .ok () else .error .attributeError

/-- client.py lines 136-144, the E-command handler:
`num_local_epochs = self.serial.get_local_epochs()` followed by
`struct.pack` and `send_with_ack`.  The attribute lookup is performed
first; class Serial defines no method named get_local_epochs, so the
lookup raises and the reply is never packed or sent. -/
def clientHandleE : Except PyError Unit :=
  match serialGetattr "get_local_epochs" with
  | .error e => .error e
  | .ok _ => .ok ()

/-- client.py, `radio_wait_respond_cmd` dispatch on the first byte of a
received command (`R` = 82, `S` = 83, `N` = 78, `E` = 69, `L` = 76).
The R, S, N, L and unknown-tag handlers are injected as parameters (they
are modelled separately); the E handler is the one under examination. -/
def clientDispatch (onR onS onN onL onOther : Except PyError Unit)
    (cmd : List Nat) : Except PyError Unit :=
  if cmd.take 1 = [82] then onR
  else if cmd.take 1 = [83] then onS
  else if cmd.take 1 = [78] then onN
  else if cmd.take 1 = [69] then clientHandleE
  else if cmd.take 1 = [76] then onL
  else onOther

/-- server.py, `target_next_client`: increment target_board, wrap with
`target_board % NUM_CLIENTS` once past NUM_CLIENTS, then — when the server
is not also a client — execute `self.target_next_client(self.target_board)`.
That call passes a positional argument to a method that accepts none, so
Python raises TypeError before any skip-the-server check can run.  Returns
the new target_board and the raised error, if any. -/
def target_next_client (numClients : Nat) (isAlsoClient : Bool) (t : Nat) :
    Nat × Option PyError :=
  let t1 := t + 1
  let t2 := if numClients < t1 then t1 % numClients else t1
  if isAlsoClient then (t2, none) else (t2, some .typeError)

/-- The static configuration from config.py, plus the constructor argument
`server_also_client` of ServerTask. -/
structure Config where
  numClients : Nat
  numRounds : Nat
  minimumEpochs : Nat
  boardNum : Nat
  antennaAttached : Bool
  serverAlsoClient : Bool
  deriving DecidableEq, Repr

/-- config.py values of this repository. -/
def repoConfig : Config :=
  { numClients := 5, numRounds := 30, minimumEpochs := 5, boardNum := 3,
    antennaAttached := true, serverAlsoClient := true }

/-- The mutable per-instance state of ServerTask that main_task touches. -/
structure SState where
  target_board : Nat
  round_num : Nat
  clients_initialised : List Bool
  client_epochs : List Nat
  num_client_samples : List Nat
  deriving DecidableEq, Repr

/-- Radio environment for one `radio_send_cmd(R)` call: whether the initial
5-byte command got a valid `!` ack, and the per-packet ack outcomes of the
subsequent `_tx_params_radio` run. -/
structure REnv where
  ackOk : Bool
  acks : List Bool
  deriving DecidableEq, Repr

/-- Radio environment for one `radio_send_cmd(N)` or `radio_send_cmd(E)`
call: initial ack, whether `await_rx(timeout=2)` reported a packet, and the
received reply (None models a CRC failure inside receive). -/
structure PktEnv where
  ackOk : Bool
  pktReady : Bool
  msg : Option (List Nat)
  deriving DecidableEq, Repr

/-- Radio environment for one `radio_send_cmd(S)` call: initial ack carrying
the declared incoming length, the 120 s `await_rx` outcome, the received
client-ready message (None models a CRC failure), and the byte count that
`_rx_params_radio` returns when it runs. -/
structure SEnv where
  ackValid : Bool
  incomingLen : Nat
  clientReady : Bool
  clientReadyMsg : Option (List Nat)
  rxBytes : Nat
  deriving DecidableEq, Repr

/-- Environment of one main_task invocation: the serial pull of the global
parameters, the global file contents it produces, and the radio
environments of each command the invocation may send. -/
structure Env where
  serialRxOk : Bool
  globalBlob : List Nat
  rInit : REnv
  ePkt : PktEnv
  rMain : REnv
  sEnv : SEnv
  nPkt : PktEnv
  serialTxOk : Bool
  deriving DecidableEq, Repr

/-- server.py, `radio_send_cmd(b R)`: assert the target id, refuse without
an antenna, send the command, and on a `!` ack run `_tx_params_radio` on
the global file; True exactly when the transmitted byte count equals the
file length. -/
def radioSendCmdR (cfg : Config) (blob : List Nat) (e : REnv) (t : Nat) :
    Except PyError Bool :=
  if ¬(1 ≤ t ∧ t ≤ 5) then .error .assertionError
  else if ¬cfg.antennaAttached then .ok false
  else if ¬e.ackOk then .ok false
  else .ok (decide ((txRun blob e.acks).1 = blob.length))

/-- server.py, `radio_send_cmd(b E)`: on a `!` ack and a ready packet,
unpack a u32 and store it in `client_epochs[target_board-1]`.  Returns the
updated epochs list (the Bool result of radio_send_cmd is discarded by the
caller). -/
def radioSendCmdE (cfg : Config) (e : PktEnv) (t : Nat) (epochs : List Nat) :
    Except PyError (List Nat) :=
  if ¬(1 ≤ t ∧ t ≤ 5) then .error .assertionError
  else if ¬cfg.antennaAttached then .ok epochs
  else if ¬e.ackOk then .ok epochs
  else if ¬e.pktReady then .ok epochs
  else
    match structUnpackI e.msg with
    | .error er => .error er
    | .ok n => pySet epochs ((t : Int) - 1) n

/-- server.py, `radio_send_cmd(b N)`: same shape as the E command, storing
into `num_client_samples[target_board-1]`. -/
def radioSendCmdN (cfg : Config) (e : PktEnv) (t : Nat) (samples : List Nat) :
    Except PyError (List Nat) :=
  if ¬(1 ≤ t ∧ t ≤ 5) then .error .assertionError
  else if ¬cfg.antennaAttached then .ok samples
  else if ¬e.ackOk then .ok samples
  else if ¬e.pktReady then .ok samples
  else
    match structUnpackI e.msg with
    | .error er => .error er
    | .ok n => pySet samples ((t : Int) - 1) n

/-- The client-ready marker `#` (one byte, 35). -/
def hashMsg : List Nat := [35]

/-- server.py, `radio_send_cmd(b S)`: on a `!` ack, wait 120 s for the
client-ready message.  No message: return False.  A message other than `#`
skips the branch that assigns `num_bytes_received`, so the comparison
`num_bytes_received == incoming_params_length` reads an unassigned local
and raises NameError.  On `#`, `_rx_params_radio` writes the incoming
bytes to `client_params_files[target_board-1]` and the byte count is
compared against the declared length. -/
def radioSendCmdS (cfg : Config) (e : SEnv) (t : Nat) : Except PyError Bool :=
  if ¬(1 ≤ t ∧ t ≤ 5) then .error .assertionError
  else if ¬cfg.antennaAttached then .ok false
  else if ¬e.ackValid then .ok false
  else if ¬e.clientReady then .ok false
  else
    let num_bytes_received : Option Nat :=
      if e.clientReadyMsg = some hashMsg then some e.rxBytes else none
    match num_bytes_received with
    | none => .error .nameError
    | some n =>
      match pyIndexOk cfg.numClients ((t : Int) - 1) with
      | .error er => .error er
      | .ok _ => .ok (decide (n = e.incomingLen))

/-- server.py main_task, the cursor advance followed by `return` (no
round_num increment): lines 97-98, 101-102, 119-120, 139-140, 144-145. -/
def advanceCursor (cfg : Config) (s : SState) : SState × Option PyError :=
  let r := target_next_client cfg.numClients cfg.serverAlsoClient s.target_board
  ({ s with target_board := r.1 }, r.2)

/-- server.py main_task lines 163-164: `target_next_client()` then
`round_num += 1`.  A TypeError raised by the cursor advance leaves
round_num unincremented. -/
def finishRound (cfg : Config) (s : SState) : SState × Option PyError :=
  let r := target_next_client cfg.numClients cfg.serverAlsoClient s.target_board
  match r.2 with
  | some e => ({ s with target_board := r.1 }, some e)
  | none => ({ s with target_board := r.1, round_num := s.round_num + 1 }, none)

/-- server.py, `ServerTask.main_task`: one invocation of the FL server
task, as a function of the static config, the radio and serial environment
of the invocation, and the current instance state.  Returns the new state
and the unhandled Python error, if one escapes main_task. -/
def main_task (cfg : Config) (env : Env) (s : SState) : SState × Option PyError :=
  if ¬(s.round_num < cfg.numRounds) then (s, none)
  else if ¬env.serialRxOk then (s, none)
  else if s.target_board ≠ cfg.boardNum then
    match pyGet s.clients_initialised ((s.target_board : Int) - 1) with
    | .error e => (s, some e)
    | .ok initialised =>
      if ¬initialised then
        match radioSendCmdR cfg env.globalBlob env.rInit s.target_board with
        | .error e => (s, some e)
        | .ok true =>
          match pySet s.clients_initialised ((s.target_board : Int) - 1) true with
          | .error e => (s, some e)
          | .ok ci => advanceCursor cfg { s with clients_initialised := ci }
        | .ok false => advanceCursor cfg s
      else
        match radioSendCmdE cfg env.ePkt s.target_board s.client_epochs with
        | .error e => (s, some e)
        | .ok eps =>
          let s1 := { s with client_epochs := eps }
          match pyGet s1.client_epochs ((s1.target_board : Int) - 1) with
          | .error e => (s1, some e)
          | .ok nep =>
            if cfg.minimumEpochs ≤ nep then
              match radioSendCmdR cfg env.globalBlob env.rMain s1.target_board with
              | .error e => (s1, some e)
              | .ok false => advanceCursor cfg s1
              | .ok true =>
                match radioSendCmdS cfg env.sEnv s1.target_board with
                | .error e => (s1, some e)
                | .ok false => advanceCursor cfg s1
                | .ok true =>
                  match radioSendCmdN cfg env.nPkt s1.target_board s1.num_client_samples with
                  | .error e => (s1, some e)
                  | .ok smp =>
                    let s2 := { s1 with num_client_samples := smp }
                    match pyIndexOk cfg.numClients ((s2.target_board : Int) - 1) with
                    | .error e => (s2, some e)
                    | .ok _ =>
                      match pyGet s2.num_client_samples ((s2.target_board : Int) - 1) with
                      | .error e => (s2, some e)
                      | .ok _ => finishRound cfg s2
            else advanceCursor cfg s1
  else
    match serialGetattr "get_local_epochs" with
    | .error e => (s, some e)
    | .ok _ => (s, none)

theorem de32_le32 (n : Nat) (h : n < 4294967296) : de32 (le32 n) = n := by
  simp only [de32, le32, List.getD_cons_zero, List.getD_cons_succ]
  omega

theorem de16_le16 (n : Nat) (h : n < 65536) : de16 (le16 n) = n := by
  simp only [de16, le16, List.getD_cons_zero, List.getD_cons_succ]
  omega

/-- C9: encoding a serial header tuple from the documented product space
produces exactly 12 bytes in the documented little-endian layout, and
decoding that layout recovers the tuple: decode is a left inverse of
encode. -/
theorem C9_header_encode_decode (cmd scope plen cid ns : Nat)
    (_hcmd : cmd ∈ [83, 82, 78, 69, 79]) (_hscope : scope ∈ [76, 71])
    (hlen : plen < 4294967296) (hcid : cid < 65536) (hns : ns < 4294967296) :
    (generate_protocol_buffer cmd scope plen cid ns).length = 12
    ∧ decode_protocol_buffer (generate_protocol_buffer cmd scope plen cid ns)
        = some (cmd, scope, plen, cid, ns) := by
  refine ⟨rfl, ?_⟩
  simp only [generate_protocol_buffer, le32, le16, List.cons_append, List.nil_append,
    decode_protocol_buffer, de32, de16, List.getD_cons_zero, List.getD_cons_succ,
    Option.some.injEq, Prod.mk.injEq, true_and]
  omega

/-- Witness for C9 at a concrete header tuple. -/
theorem C9_header_encode_decode_witness :
    (generate_protocol_buffer 83 71 305419896 54321 4294967295).length = 12
    ∧ decode_protocol_buffer (generate_protocol_buffer 83 71 305419896 54321 4294967295)
        = some (83, 71, 305419896, 54321, 4294967295) :=
  C9_header_encode_decode 83 71 305419896 54321 4294967295
    (by decide) (by decide) (by decide) (by decide) (by decide)

/-- C7 counterexample: board_num 0 lies outside [1, 5], yet addr(0) does
not fail with any error — Python negative indexing maps board_ids[-1] to
the last table entry 0xEC = 236 and returns it as an address. -/
theorem C7_addr_counterexample : get_radiohead_ID 0 = .ok 236 := rfl

/-- C7 amended: get_radiohead_ID is a pure lookup returning
board_ids[board_num-1] for board_num in [1, 5]; it performs no bounds
check, so board_num in [-4, 0] also returns an address (negative
indexing), and only board_num outside [-4, 5] fails — with IndexError,
not a BadBoardId error. -/
theorem C7_addr_amended (n : Int) :
    (1 ≤ n → n ≤ 5 → get_radiohead_ID n = .ok (board_ids.getD (n - 1).toNat 0))
    ∧ (-4 ≤ n → n ≤ 0 → get_radiohead_ID n = .ok (board_ids.getD (n + 4).toNat 0))
    ∧ (5 < n ∨ n < -4 → get_radiohead_ID n = .error .indexError) := by
  have hL : (board_ids.length : Int) = 5 := rfl
  refine ⟨?_, ?_, ?_⟩
  · intro h1 h2; interval_cases n <;> rfl
  · intro h1 h2; interval_cases n <;> rfl
  · intro h
    unfold get_radiohead_ID pyGet
    rw [dif_neg (by rw [hL]; omega), dif_neg (by rw [hL]; omega)]

/-- Witness for C7 amended: an in-range board, a negatively indexed board
and an out-of-range board. -/
theorem C7_addr_amended_witness :
    get_radiohead_ID 2 = .ok 179 ∧ get_radiohead_ID (-2) = .ok 198
    ∧ get_radiohead_ID 6 = .error .indexError :=
  ⟨(C7_addr_amended 2).1 (by decide) (by decide),
   (C7_addr_amended (-2)).2.1 (by decide) (by decide),
   (C7_addr_amended 6).2.2 (Or.inl (by decide))⟩

/-- C3: evaluating the cursor advance.  With server_also_client = true the
advance computes (target mod NUM_CLIENTS) + 1 and, from target 4, yields
5, 1, 2, 3, 4 as the spec states.  With server_also_client = false the
code executes self.target_next_client(self.target_board) — a positional
argument passed to a method accepting none — so every advance raises
TypeError instead of conditionally skipping SERVER_BOARD: from target 2
the new target is 3 = SERVER_BOARD and the error is raised with no
repeat. -/
theorem C3_target_next_client_eval :
    target_next_client 5 true 4 = (5, none)
    ∧ target_next_client 5 true 5 = (1, none)
    ∧ target_next_client 5 true 1 = (2, none)
    ∧ target_next_client 5 true 2 = (3, none)
    ∧ target_next_client 5 true 3 = (4, none)
    ∧ target_next_client 5 false 1 = (2, some PyError.typeError)
    ∧ target_next_client 5 false 2 = (3, some PyError.typeError) :=
  ⟨rfl, rfl, rfl, rfl, rfl, rfl, rfl⟩

/-- C6: any received radio command whose tag byte is E (69) dispatches to
the handler calling serial.get_local_epochs; class Serial defines no such
method, so the dispatch raises AttributeError instead of sending the
4-byte little-endian epoch reply. -/
theorem C6_dispatchE_attributeError (onR onS onN onL onOther : Except PyError Unit)
    (tail : List Nat) :
    clientDispatch onR onS onN onL onOther (69 :: tail) = .error .attributeError := by
  simp [clientDispatch, clientHandleE, serialGetattr, serialMethods]

theorem rxLoop_miss_run (incoming m : Nat) (evs : List (Option (List Nat)))
    (acc : List Nat) :
    ∀ (k r : Nat), acc.length < incoming → r + k ≤ m →
      rxLoop incoming m (List.replicate k none ++ evs) acc r
        = rxLoop incoming m evs acc (r + k) := by
  intro k
  induction k with
  | zero => intro r h1 h2; simp
  | succ k ih =>
    intro r h1 h2
    rw [List.replicate_succ, List.cons_append]
    simp only [rxLoop]
    rw [if_neg (by omega), if_neg (by omega), ih (r + 1) h1 (by omega)]
    have hrk : r + 1 + k = r + (k + 1) := by omega
    rw [hrk]

theorem rxLoop_abort (incoming m : Nat) (evs : List (Option (List Nat)))
    (acc : List Nat) (r : Nat) (h1 : acc.length < incoming) (h2 : m ≤ r) :
    rxLoop incoming m (none :: evs) acc r = .aborted acc := by
  simp only [rxLoop]
  rw [if_neg (by omega), if_pos h2]

/-- C4 counterexample: with max_retries = 5 and declared length 1, after
exactly five consecutive misses the loop has NOT aborted — it is still
waiting, and a following delivered packet completes the transfer normally.
Only a sixth consecutive miss aborts, because `retries >= max_retries` is
checked before the counter is incremented. -/
theorem C4_retry_counterexample :
    rxLoop 1 5 (List.replicate 5 none) [] 0 = .outOfEvents []
    ∧ rxLoop 1 5 (List.replicate 5 none ++ [some [7]]) [] 0 = .done [7]
    ∧ rxLoop 1 5 (List.replicate 6 none) [] 0 = .aborted [] :=
  ⟨rfl, rfl, rfl⟩

/-- C4 amended: the retry counter is reset to 0 on every successfully
received packet, and on a missed packet the loop first compares
`retries >= max_retries` and only then increments; consequently up to
max_retries consecutive misses are survived and the loop aborts, returning
the partial byte count, on the (max_retries+1)-th consecutive miss. -/
theorem C4_retry_amended (incoming m k : Nat) (evs : List (Option (List Nat)))
    (acc b : List Nat) (h : acc.length < incoming) :
    rxLoop incoming m (List.replicate (m + 1) none ++ evs) acc 0 = .aborted acc
    ∧ (k ≤ m →
        rxLoop incoming m (List.replicate k none ++ some b :: evs) acc 0
          = rxLoop incoming m evs (acc ++ truncBuf incoming acc.length b) 0) := by
  constructor
  · have h1 : List.replicate (m + 1) (none : Option (List Nat)) ++ evs
        = List.replicate m none ++ (none :: evs) := by
      rw [List.replicate_succ']
      simp [List.append_assoc]
    rw [h1, rxLoop_miss_run incoming m (none :: evs) acc m 0 h (by omega)]
    exact rxLoop_abort incoming m evs acc (0 + m) h (by omega)
  · intro hk
    rw [rxLoop_miss_run incoming m (some b :: evs) acc k 0 h (by omega)]
    simp only [rxLoop]
    rw [if_neg (by omega)]

/-- Witness for C4 amended at concrete values. -/
theorem C4_retry_amended_witness :
    rxLoop 3 5 (List.replicate 6 none) [9] 0 = .aborted [9]
    ∧ rxLoop 3 5 (List.replicate 5 none ++ [some [7, 8]]) [9] 0
        = rxLoop 3 5 [] ([9] ++ truncBuf 3 1 [7, 8]) 0 :=
  ⟨(C4_retry_amended 3 5 5 [] [9] [7, 8] (by decide)).1,
   (C4_retry_amended 3 5 5 [] [9] [7, 8] (by decide)).2 (by decide)⟩

theorem txChunks_nil : txChunks [] = [] := by
  rw [txChunks]
  rfl

theorem txChunks_cons (blob : List Nat) (h : blob ≠ []) :
    txChunks blob
      = blob.take RADIO_PACKETSIZE :: txChunks (blob.drop RADIO_PACKETSIZE) := by
  rw [txChunks]
  simp [h]

theorem txRun_fst_le (acks : List Bool) : ∀ blob : List Nat,
    (txRun blob acks).1 ≤ blob.length := by
  induction acks with
  | nil => intro blob; simp [txRun]
  | cons a rest ih =>
    intro blob
    simp only [txRun]
    split
    · simp
    · split
      · have h1 := ih (blob.drop RADIO_PACKETSIZE)
        rw [List.length_drop] at h1
        simp only [List.length_take]
        omega
      · simp

theorem txRun_complete (acks : List Bool) : ∀ blob : List Nat,
    (txRun blob acks).1 = blob.length → (txRun blob acks).2 = txChunks blob := by
  induction acks with
  | nil =>
    intro blob h
    simp only [txRun] at h ⊢
    cases blob with
    | nil => rw [txChunks_nil]
    | cons x xs => simp at h
  | cons a rest ih =>
    intro blob h
    cases blob with
    | nil => simp [txRun, txChunks_nil]
    | cons x xs =>
      simp only [txRun, List.isEmpty_cons, if_neg Bool.false_ne_true] at h ⊢
      by_cases ha : a
      · rw [if_pos ha] at h ⊢
        have hle := txRun_fst_le rest ((x :: xs).drop RADIO_PACKETSIZE)
        rw [List.length_drop] at hle
        rw [List.length_take] at h
        have hrec : (txRun ((x :: xs).drop RADIO_PACKETSIZE) rest).1
            = ((x :: xs).drop RADIO_PACKETSIZE).length := by
          rw [List.length_drop]
          omega
        rw [txChunks_cons _ (by simp)]
        simp only [List.cons.injEq]
        exact ⟨trivial, ih _ hrec⟩
      · rw [if_neg ha] at h
        simp at h

theorem rxLoop_faithful (blob : List Nat) (m : Nat) :
    ∀ (evs : List (Option (List Nat))) (acc : List Nat) (r : Nat) (w : List Nat),
      acc = blob.take acc.length →
      acc.length ≤ blob.length →
      evs.filterMap id = txChunks (blob.drop acc.length) →
      rxLoop blob.length m evs acc r = .done w → w = blob := by
  intro evs
  induction evs with
  | nil =>
    intro acc r w hpre hle hchan hdone
    simp only [rxLoop] at hdone
    split at hdone
    · rename_i hfull
      cases hdone
      have hacc : acc.length = blob.length := by omega
      rw [hpre, hacc, List.take_length]
    · exact absurd hdone (by simp)
  | cons e rest ih =>
    intro acc r w hpre hle hchan hdone
    cases e with
    | none =>
      simp only [List.filterMap_cons] at hchan
      simp only [rxLoop] at hdone
      split at hdone
      · rename_i hfull
        cases hdone
        have hacc : acc.length = blob.length := by omega
        rw [hpre, hacc, List.take_length]
      · split at hdone
        · exact absurd hdone (by simp)
        · exact ih acc (r + 1) w hpre hle hchan hdone
    | some b =>
      simp only [rxLoop] at hdone
      split at hdone
      · rename_i hfull
        cases hdone
        have hacc : acc.length = blob.length := by omega
        rw [hpre, hacc, List.take_length]
      · rename_i hnotfull
        have hlt : acc.length < blob.length := by omega
        have hchan' : b :: rest.filterMap id = txChunks (blob.drop acc.length) := by
          simpa using hchan
        have hdropne : blob.drop acc.length ≠ [] := by
          intro hnil
          have hlen := congrArg List.length hnil
          rw [List.length_drop] at hlen
          simp at hlen
          omega
        rw [txChunks_cons _ hdropne] at hchan'
        injection hchan' with hb hrest
        have hdlen : (blob.drop acc.length).length = blob.length - acc.length :=
          List.length_drop ..
        by_cases hsmall : blob.length - acc.length < RADIO_PACKETSIZE
        · -- final packet: the truncated buffer is exactly the remainder
          have hbuf : truncBuf blob.length acc.length b = blob.drop acc.length := by
            rw [truncBuf, if_pos hsmall, hb, List.take_take]
            rw [min_eq_left (by omega), ← hdlen, List.take_length]
          have hacc' : acc ++ truncBuf blob.length acc.length b = blob := by
            have h1 := List.take_append_drop acc.length blob
            rw [← hpre] at h1
            rw [hbuf, h1]
          rw [hacc'] at hdone
          have hdrop0 : (blob.drop acc.length).drop RADIO_PACKETSIZE = [] :=
            List.drop_eq_nil_of_le (by omega)
          have hrest' : rest.filterMap id = txChunks (blob.drop blob.length) := by
            rw [hrest, hdrop0, txChunks_nil, List.drop_length, txChunks_nil]
          exact ih blob 0 w (List.take_length blob).symm le_rfl hrest' hdone
        · -- full packet of RADIO_PACKETSIZE bytes
          have hbuf : truncBuf blob.length acc.length b
              = (blob.drop acc.length).take RADIO_PACKETSIZE := by
            rw [truncBuf, if_neg hsmall, hb]
          have hblen : (truncBuf blob.length acc.length b).length = RADIO_PACKETSIZE := by
            rw [hbuf, List.length_take]
            omega
          have hlen' : (acc ++ truncBuf blob.length acc.length b).length
              = acc.length + RADIO_PACKETSIZE := by
            rw [List.length_append, hblen]
          have hpre' : acc ++ truncBuf blob.length acc.length b
              = blob.take (acc.length + RADIO_PACKETSIZE) := by
            rw [List.take_add, ← hpre, hbuf]
          have hrest' : rest.filterMap id
              = txChunks (blob.drop (acc.length + RADIO_PACKETSIZE)) := by
            rw [hrest, List.drop_drop, Nat.add_comm]
          exact ih (acc ++ truncBuf blob.length acc.length b) 0 w
            (by rw [hlen', hpre']) (by rw [hlen']; omega) (by rw [hlen']; exact hrest')
            hdone

/-- C1: for a successful R-transaction — the sender transmits its global
blob packet-by-packet and every packet is acknowledged with `!` (the byte
count sent equals the blob length), the receiver observes exactly the
acknowledged packets in order (possibly interleaved with misses), and the
receive loop terminates normally — the byte sequence written by the
receiver equals the sender's global blob bit-for-bit, and the byte count
read equals the declared length. -/
theorem C1_r_transaction_bitforbit (blob : List Nat) (acks : List Bool)
    (evs : List (Option (List Nat))) (w : List Nat)
    (hsend : (txRun blob acks).1 = blob.length)
    (hchan : evs.filterMap id = (txRun blob acks).2)
    (hdone : rxLoop blob.length 5 evs [] 0 = .done w) :
    w = blob ∧ w.length = blob.length := by
  have h2 := txRun_complete acks blob hsend
  have hmain := rxLoop_faithful blob 5 evs [] 0 w (by simp) (by simp)
      (by rw [hchan, h2]; simp) hdone
  exact ⟨hmain, by rw [hmain]⟩

/-- Witness for C1: a 4-byte blob sent as one acknowledged packet,
received after one missed packet. -/
theorem C1_r_transaction_bitforbit_witness :
    ([1, 2, 3, 4] : List Nat) = [1, 2, 3, 4]
    ∧ ([1, 2, 3, 4] : List Nat).length = ([1, 2, 3, 4] : List Nat).length :=
  C1_r_transaction_bitforbit [1, 2, 3, 4] [true] [none, some [1, 2, 3, 4]]
    [1, 2, 3, 4] (by decide) (by decide) (by decide)

theorem serialRxLoop_sound : ∀ (chunks : List (List Nat)) (incoming : Nat)
    (acc out : List Nat), serialRxLoop incoming chunks acc = some out →
    incoming ≤ out.length ∧ ∃ k, out = acc ++ (chunks.take k).flatten := by
  intro chunks
  induction chunks with
  | nil =>
    intro incoming acc out h
    simp only [serialRxLoop] at h
    split at h
    · cases h
      exact ⟨by omega, 0, by simp⟩
    · cases h
  | cons c rest ih =>
    intro incoming acc out h
    simp only [serialRxLoop] at h
    split at h
    · cases h
      exact ⟨by omega, 0, by simp⟩
    · obtain ⟨h1, k, hk⟩ := ih incoming (acc ++ c) out h
      refine ⟨h1, k + 1, ?_⟩
      rw [hk]
      simp [List.flatten_cons]

/-- C8 counterexample: a declared incoming length of 2 with a single
3-byte in_waiting chunk makes rx_params write 3 bytes and return True —
the excess is not detected, so the operation reports success with a byte
count different from the declared length. -/
theorem C8_rx_params_counterexample :
    (rx_params true true 0 (33 :: le32 2) [[1, 2, 3]]).2 = .success [1, 2, 3]
    ∧ ([1, 2, 3] : List Nat).length ≠ de32 (le32 2) :=
  ⟨rfl, by decide⟩

/-- C8 amended: on a `!` ack declaring an incoming length L, rx_params
reads in_waiting-sized chunks until the byte count first reaches or
exceeds L and then reports success unconditionally: the written bytes are
a whole number of leading chunks totalling at least L bytes; no byte-count
mismatch against L is checked (an overshooting final chunk still reports
success, and a truncated stream leaves the loop waiting rather than
returning failure). -/
theorem C8_rx_params_amended (g : Bool) (fl : Nat) (tail : List Nat)
    (chunks : List (List Nat)) (out : List Nat)
    (h4 : tail.length = 4)
    (hloop : serialRxLoop (de32 tail) chunks [] = some out) :
    (rx_params true g fl (33 :: tail) chunks).2 = .success out
    ∧ de32 tail ≤ out.length
    ∧ ∃ k, out = (chunks.take k).flatten := by
  have hs := serialRxLoop_sound chunks (de32 tail) [] out hloop
  refine ⟨?_, hs.1, ?_⟩
  · have hdrop : (33 :: tail).drop 1 = tail := rfl
    have htake : (33 :: tail).take 1 = [33] := rfl
    simp only [rx_params, hdrop, htake, h4, hloop]
    simp
  · obtain ⟨k, hk⟩ := hs.2
    exact ⟨k, by simpa using hk⟩

/-- Witness for C8 amended: declared length 5, three chunks totalling 6
bytes — success with 6 bytes written. -/
theorem C8_rx_params_amended_witness :
    (rx_params true true 0 (33 :: [5, 0, 0, 0]) [[1, 2], [3, 4], [9, 9]]).2
        = .success [1, 2, 3, 4, 9, 9]
    ∧ de32 [5, 0, 0, 0] ≤ ([1, 2, 3, 4, 9, 9] : List Nat).length
    ∧ ∃ k, ([1, 2, 3, 4, 9, 9] : List Nat) = (([[1, 2], [3, 4], [9, 9]] :
        List (List Nat)).take k).flatten :=
  C8_rx_params_amended true 0 [5, 0, 0, 0] [[1, 2], [3, 4], [9, 9]]
    [1, 2, 3, 4, 9, 9] (by decide) (by decide)

theorem radioSendCmdR_ok_bounds (cfg : Config) (blob : List Nat) (e : REnv) (t : Nat)
    (b : Bool) (h : radioSendCmdR cfg blob e t = .ok b) : 1 ≤ t ∧ t ≤ 5 := by
  unfold radioSendCmdR at h
  split at h
  · exact absurd h (by simp)
  · rename_i h'
    exact not_not.mp h'

theorem radioSendCmdR_ok_true_elim (cfg : Config) (blob : List Nat) (e : REnv) (t : Nat)
    (h : radioSendCmdR cfg blob e t = .ok true) :
    (1 ≤ t ∧ t ≤ 5) ∧ cfg.antennaAttached = true ∧ e.ackOk = true
      ∧ (txRun blob e.acks).1 = blob.length := by
  unfold radioSendCmdR at h
  split_ifs at h with a b c <;> simp_all

theorem pySet_ok_of_pos {α : Type} (l : List α) (t : Nat) (a : α) (l2 : List α)
    (ht : 1 ≤ t) (h : pySet l ((t : Int) - 1) a = .ok l2) :
    l2 = l.set (t - 1) a := by
  unfold pySet at h
  split_ifs at h with hc1 hc2
  · cases h
    have hn : ((t : Int) - 1).toNat = t - 1 := by omega
    rw [hn]
  · exact absurd hc2.1 (by omega)

theorem getD_set_true (l : List Bool) (i j : Nat) (h : l.getD i false = true) :
    (l.set j true).getD i false = true := by
  induction l generalizing i j with
  | nil => simp at h
  | cons a l ih =>
    cases i with
    | zero =>
      cases j with
      | zero => simp
      | succ j => simpa using h
    | succ i =>
      cases j with
      | zero => simpa using h
      | succ j =>
        simp only [List.set_cons_succ, List.getD_cons_succ] at h ⊢
        exact ih i j h

theorem serialGetattr_gle : serialGetattr "get_local_epochs" = .error .attributeError := rfl

/-- Exit characterization of one main_task invocation: either the
invocation leaves round_num and clients_initialised unchanged (any error,
failure or epoch-gated exit), or it marks the uninitialised target
initialised after a successful R transaction without touching round_num,
or it runs the full success path and increments round_num without
touching clients_initialised. -/
theorem main_task_exits (cfg : Config) (env : Env) (s : SState) :
    ((main_task cfg env s).1.round_num = s.round_num
      ∧ (main_task cfg env s).1.clients_initialised = s.clients_initialised)
    ∨ (1 ≤ s.target_board ∧ s.target_board ≤ 5
      ∧ pyGet s.clients_initialised ((s.target_board : Int) - 1) = .ok false
      ∧ radioSendCmdR cfg env.globalBlob env.rInit s.target_board = .ok true
      ∧ (main_task cfg env s).1.clients_initialised
          = s.clients_initialised.set (s.target_board - 1) true
      ∧ (main_task cfg env s).1.round_num = s.round_num)
    ∨ ((main_task cfg env s).1.round_num = s.round_num + 1
      ∧ (main_task cfg env s).1.clients_initialised = s.clients_initialised
      ∧ (main_task cfg env s).2 = none
      ∧ env.serialRxOk = true
      ∧ s.target_board ≠ cfg.boardNum
      ∧ radioSendCmdR cfg env.globalBlob env.rMain s.target_board = .ok true
      ∧ radioSendCmdS cfg env.sEnv s.target_board = .ok true
      ∧ cfg.serverAlsoClient = true) := by
  by_cases h1 : s.round_num < cfg.numRounds
  case neg => left; simp [main_task, h1]
  by_cases h2 : env.serialRxOk = true
  case neg => left; simp [main_task, h1, h2]
  by_cases h3 : s.target_board = cfg.boardNum
  case pos => left; simp [main_task, h1, h2, h3, serialGetattr_gle]
  rcases hg : pyGet s.clients_initialised ((s.target_board : Int) - 1) with e | initb
  · left; simp [main_task, h1, h2, h3, hg]
  cases initb with
  | false =>
    rcases hr : radioSendCmdR cfg env.globalBlob env.rInit s.target_board with e | rb
    · left; simp [main_task, h1, h2, h3, hg, hr]
    cases rb with
    | false =>
      left; simp [main_task, advanceCursor, target_next_client, h1, h2, h3, hg, hr]
    | true =>
      have ht := radioSendCmdR_ok_bounds cfg env.globalBlob env.rInit s.target_board true hr
      rcases hset : pySet s.clients_initialised ((s.target_board : Int) - 1) true with e | ci2
      · left; simp [main_task, h1, h2, h3, hg, hr, hset]
      · right; left
        have hci2 := pySet_ok_of_pos s.clients_initialised s.target_board true ci2 ht.1 hset
        refine ⟨ht.1, ht.2, rfl, rfl, ?_, ?_⟩
        · simp [main_task, advanceCursor, target_next_client, h1, h2, h3, hg, hr, hset, hci2]
        · simp [main_task, advanceCursor, target_next_client, h1, h2, h3, hg, hr, hset]
  | true =>
    rcases he : radioSendCmdE cfg env.ePkt s.target_board s.client_epochs with e | eps
    · left; simp [main_task, h1, h2, h3, hg, he]
    rcases hep : pyGet eps ((s.target_board : Int) - 1) with e | nep
    · left; simp [main_task, h1, h2, h3, hg, he, hep]
    by_cases hmin : cfg.minimumEpochs ≤ nep
    case neg =>
      left
      simp [main_task, advanceCursor, target_next_client, h1, h2, h3, hg, he, hep, hmin]
    rcases hr2 : radioSendCmdR cfg env.globalBlob env.rMain s.target_board with e | rb2
    · left; simp [main_task, h1, h2, h3, hg, he, hep, hmin, hr2]
    cases rb2 with
    | false =>
      left
      simp [main_task, advanceCursor, target_next_client, h1, h2, h3, hg, he, hep, hmin, hr2]
    | true =>
      rcases hs2 : radioSendCmdS cfg env.sEnv s.target_board with e | sb
      · left; simp [main_task, h1, h2, h3, hg, he, hep, hmin, hr2, hs2]
      cases sb with
      | false =>
        left
        simp [main_task, advanceCursor, target_next_client, h1, h2, h3, hg, he, hep, hmin,
          hr2, hs2]
      | true =>
        rcases hn : radioSendCmdN cfg env.nPkt s.target_board s.num_client_samples with e | smp
        · left; simp [main_task, h1, h2, h3, hg, he, hep, hmin, hr2, hs2, hn]
        rcases hio : pyIndexOk cfg.numClients ((s.target_board : Int) - 1) with e | u0
        · left; simp [main_task, h1, h2, h3, hg, he, hep, hmin, hr2, hs2, hn, hio]
        rcases hs3 : pyGet smp ((s.target_board : Int) - 1) with e | v0
        · left; simp [main_task, h1, h2, h3, hg, he, hep, hmin, hr2, hs2, hn, hio, hs3]
        by_cases hsac : cfg.serverAlsoClient = true
        case neg =>
          left
          simp [main_task, finishRound, target_next_client, h1, h2, h3, hg, he, hep, hmin,
            hr2, hs2, hn, hio, hs3, hsac]
        right; right
        refine ⟨?_, ?_, ?_, h2, h3, rfl, rfl, hsac⟩ <;>
          simp [main_task, finishRound, target_next_client, h1, h2, h3, hg, he, hep, hmin,
            hr2, hs2, hn, hio, hs3, hsac]

/-- C2 counterexample: with the repository config, a visit to the
uninitialised client 4 whose R command gets no ACK — the cursor advances
to client 5 (the client was visited and the visit failed), yet round_num
stays at 0 instead of advancing, refuting that round_num advances exactly
once per visited client even when the visit fails. -/
theorem C2_round_counterexample :
    ((main_task repoConfig
        ⟨true, [1, 2, 3, 4], ⟨false, []⟩, ⟨false, false, none⟩, ⟨false, []⟩,
          ⟨false, 0, false, none, 0⟩, ⟨false, false, none⟩, true⟩
        ⟨4, 0, [false, false, false, false, false], [0, 0, 0, 0, 0],
          [0, 0, 0, 0, 0]⟩).1.target_board = 5)
    ∧ ((main_task repoConfig
        ⟨true, [1, 2, 3, 4], ⟨false, []⟩, ⟨false, false, none⟩, ⟨false, []⟩,
          ⟨false, 0, false, none, 0⟩, ⟨false, false, none⟩, true⟩
        ⟨4, 0, [false, false, false, false, false], [0, 0, 0, 0, 0],
          [0, 0, 0, 0, 0]⟩).1.round_num = 0)
    ∧ ((main_task repoConfig
        ⟨true, [1, 2, 3, 4], ⟨false, []⟩, ⟨false, false, none⟩, ⟨false, []⟩,
          ⟨false, 0, false, none, 0⟩, ⟨false, false, none⟩, true⟩
        ⟨4, 0, [false, false, false, false, false], [0, 0, 0, 0, 0],
          [0, 0, 0, 0, 0]⟩).2 = none) :=
  ⟨rfl, rfl, rfl⟩

/-- C2 amended: round_num is monotonically non-decreasing across main_task
invocations and increases by at most 1 per invocation; it is incremented
only by a visit that completes the full success path (serial pull ok,
target not self, R and S transactions fully successful, cursor advance
without error), and is unchanged on every failed visit — only the cursor
advances there. -/
theorem C2_round_amended (cfg : Config) (env : Env) (s : SState) :
    s.round_num ≤ (main_task cfg env s).1.round_num
    ∧ (main_task cfg env s).1.round_num ≤ s.round_num + 1
    ∧ ((main_task cfg env s).1.round_num ≠ s.round_num →
        (main_task cfg env s).1.round_num = s.round_num + 1
        ∧ (main_task cfg env s).2 = none
        ∧ env.serialRxOk = true
        ∧ s.target_board ≠ cfg.boardNum
        ∧ radioSendCmdR cfg env.globalBlob env.rMain s.target_board = .ok true
        ∧ radioSendCmdS cfg env.sEnv s.target_board = .ok true
        ∧ cfg.serverAlsoClient = true) := by
  rcases main_task_exits cfg env s with ⟨ha, _⟩ | ⟨_, _, _, _, _, hb⟩ |
    ⟨hc1, _, hc3, hc4, hc5, hc6, hc7, hc8⟩
  · exact ⟨by omega, by omega, fun hne => absurd ha hne⟩
  · exact ⟨by omega, by omega, fun hne => absurd hb hne⟩
  · exact ⟨by omega, by omega, fun _ => ⟨hc1, hc3, hc4, hc5, hc6, hc7, hc8⟩⟩

/-- Witness for C2 amended: a full-success visit increments round_num from
0 to 1. -/
theorem C2_round_amended_witness :
    (main_task repoConfig
        ⟨true, [], ⟨false, []⟩, ⟨false, false, none⟩, ⟨true, []⟩,
          ⟨true, 7, true, some [35], 7⟩, ⟨false, false, none⟩, true⟩
        ⟨4, 0, [false, false, false, true, false], [0, 0, 0, 9, 0],
          [0, 0, 0, 0, 0]⟩).1.round_num = 0 + 1 :=
  ((C2_round_amended repoConfig
      ⟨true, [], ⟨false, []⟩, ⟨false, false, none⟩, ⟨true, []⟩,
        ⟨true, 7, true, some [35], 7⟩, ⟨false, false, none⟩, true⟩
      ⟨4, 0, [false, false, false, true, false], [0, 0, 0, 9, 0],
        [0, 0, 0, 0, 0]⟩).2.2 (by decide)).1

/-- C5: for every configuration, environment and state, each
clients_initialised flag is monotone (false to true at most once, never
back), and the list changes only when the uninitialised target client
completed a successful R transaction — the change sets exactly the target
flag to true; after any failed transaction the list is unchanged. -/
theorem C5_initialised_invariant (cfg : Config) (env : Env) (s : SState) (i : Nat) :
    (s.clients_initialised.getD i false = true →
      (main_task cfg env s).1.clients_initialised.getD i false = true)
    ∧ ((main_task cfg env s).1.clients_initialised ≠ s.clients_initialised →
        1 ≤ s.target_board ∧ s.target_board ≤ 5
        ∧ pyGet s.clients_initialised ((s.target_board : Int) - 1) = .ok false
        ∧ radioSendCmdR cfg env.globalBlob env.rInit s.target_board = .ok true
        ∧ (main_task cfg env s).1.clients_initialised
            = s.clients_initialised.set (s.target_board - 1) true) := by
  rcases main_task_exits cfg env s with ⟨_, hci⟩ | ⟨ht1, ht2, hg, hr, hci, _⟩ | ⟨_, hci, _⟩
  · exact ⟨fun h => by rw [hci]; exact h, fun hne => absurd hci hne⟩
  · refine ⟨fun h => ?_, fun _ => ⟨ht1, ht2, hg, hr, hci⟩⟩
    rw [hci]
    exact getD_set_true _ i _ h
  · exact ⟨fun h => by rw [hci]; exact h, fun hne => absurd hci hne⟩

/-- Witness for C5: an already-true flag stays true through an invocation
that initialises another client. -/
theorem C5_initialised_invariant_witness :
    (main_task repoConfig
        ⟨true, [], ⟨true, []⟩, ⟨false, false, none⟩, ⟨false, []⟩,
          ⟨false, 0, false, none, 0⟩, ⟨false, false, none⟩, true⟩
        ⟨4, 0, [true, false, false, false, false], [0, 0, 0, 0, 0],
          [0, 0, 0, 0, 0]⟩).1.clients_initialised.getD 0 false = true :=
  (C5_initialised_invariant repoConfig
      ⟨true, [], ⟨true, []⟩, ⟨false, false, none⟩, ⟨false, []⟩,
        ⟨false, 0, false, none, 0⟩, ⟨false, false, none⟩, true⟩
      ⟨4, 0, [true, false, false, false, false], [0, 0, 0, 0, 0],
        [0, 0, 0, 0, 0]⟩ 0).1 (by decide)

/-- C10: whenever the S-command handler gets past its `!` ack and the
120 s client-ready wait yields a message different from `#`, the branch
assigning num_bytes_received is skipped and the subsequent comparison
reads the unassigned local, so an unhandled NameError escapes main_task
instead of the handler returning False. -/
theorem C10_S_handler_nameError (cfg : Config) (env : Env) (s : SState)
    (eps : List Nat) (nep : Nat)
    (h1 : s.round_num < cfg.numRounds)
    (h2 : env.serialRxOk = true)
    (h3 : s.target_board ≠ cfg.boardNum)
    (h4 : pyGet s.clients_initialised ((s.target_board : Int) - 1) = .ok true)
    (h5 : radioSendCmdE cfg env.ePkt s.target_board s.client_epochs = .ok eps)
    (h6 : pyGet eps ((s.target_board : Int) - 1) = .ok nep)
    (h7 : cfg.minimumEpochs ≤ nep)
    (h8 : radioSendCmdR cfg env.globalBlob env.rMain s.target_board = .ok true)
    (h9 : env.sEnv.ackValid = true)
    (h10 : env.sEnv.clientReady = true)
    (h11 : env.sEnv.clientReadyMsg ≠ some hashMsg) :
    (main_task cfg env s).2 = some .nameError := by
  obtain ⟨ht, hant, _, _⟩ :=
    radioSendCmdR_ok_true_elim cfg env.globalBlob env.rMain s.target_board h8
  have hS : radioSendCmdS cfg env.sEnv s.target_board = .error .nameError := by
    unfold radioSendCmdS
    rw [if_neg (not_not.mpr ht), if_neg (not_not.mpr hant), if_neg (not_not.mpr h9),
      if_neg (not_not.mpr h10)]
    simp [h11]
  simp [main_task, h1, h2, h3, h4, h5, h6, h7, h8, hS]

/-- Witness for C10: a concrete state and environment reaching the
client-ready wait with a non-`#` message. -/
theorem C10_S_handler_nameError_witness :
    (main_task repoConfig
        ⟨true, [], ⟨false, []⟩, ⟨false, false, none⟩, ⟨true, []⟩,
          ⟨true, 7, true, some [99], 7⟩, ⟨false, false, none⟩, true⟩
        ⟨4, 0, [false, false, false, true, false], [0, 0, 0, 9, 0],
          [0, 0, 0, 0, 0]⟩).2 = some .nameError :=
  C10_S_handler_nameError repoConfig
    ⟨true, [], ⟨false, []⟩, ⟨false, false, none⟩, ⟨true, []⟩,
      ⟨true, 7, true, some [99], 7⟩, ⟨false, false, none⟩, true⟩
    ⟨4, 0, [false, false, false, true, false], [0, 0, 0, 9, 0], [0, 0, 0, 0, 0]⟩
    [0, 0, 0, 9, 0] 9 (by decide) rfl (by decide) rfl rfl rfl
    (by decide) rfl rfl rfl (by decide)

end PyCubed
